import Mathlib

/-!
Verification of the thin orchestration layer of the
bedrock-agentcore onboarding sample: the batch and streaming runtime
entrypoints (`02_runtime/deployment/invoke.py`,
`02_runtime/deployment/invoke_async.py`) and the identity test client
(`03_identity/test_identity_agent.py`).

External collaborators (the cost-estimation agent, the HTTP client, the
base64 and JSON codecs of the standard library) are represented either as
function parameters or as definitions whose doc comment starts with
`Modelled from the spec:`.
-/

/-! Section: Python value model

A minimal model of the Python values that flow through the entrypoints:
the payload dictionary holds strings or `None`. -/

/-- A Python value as it appears in the invocation payload: either `None`
or a string. -/
inductive PyVal where
  | none
  | str (s : String)
deriving DecidableEq, Repr

/-- Python `dict.get(key)`: the stored value when the key is present,
`None` otherwise. -/
def pyDictGet (payload : List (String × PyVal)) (key : String) : PyVal :=
  (payload.lookup key).getD PyVal.none

/-! Section: Batch invoker — `02_runtime/deployment/invoke.py`

`invoke(payload)` reads `payload.get("prompt")`, constructs the agent and
returns `agent.estimate_costs(user_input)` unchanged.  The external agent
is the parameter `estimate_costs`. -/

/-- The batch entrypoint `invoke` of `invoke.py`: extracts the prompt from
the payload and returns the result of the agent batch estimation call
unchanged. -/
def invoke {α : Type} (estimate_costs : PyVal → α)
    (payload : List (String × PyVal)) : α :=
  let user_input := pyDictGet payload "prompt"
  estimate_costs user_input

/-! Section: Streaming invoker — `02_runtime/deployment/invoke_async.py`

`invoke(payload)` obtains `agent.estimate_costs_stream(user_input)` and
runs `async for event in stream: yield (event)`.  A finite event stream is
a list; the `async for`/`yield` loop is `forwardEvents`. -/

/-- The forwarding loop of `invoke_async.py`: yields each event of the
upstream stream to the caller, in order, as it arrives. -/
def forwardEvents {α : Type} : List α → List α
  | [] => []
  | e :: rest => e :: forwardEvents rest

/-- The streaming entrypoint `invoke` of `invoke_async.py`: extracts the
prompt, obtains the upstream event stream and forwards every event. -/
def invoke_stream {α : Type} (estimate_costs_stream : PyVal → List α)
    (payload : List (String × PyVal)) : List α :=
  let user_input := pyDictGet payload "prompt"
  let stream := estimate_costs_stream user_input
  forwardEvents stream

/-! Section: Base64 padding — `03_identity/test_identity_agent.py` -/

/-- Constant `BASE64_BLOCK_SIZE = 4`: base64 encoding processes data in
blocks of four characters. -/
def BASE64_BLOCK_SIZE : Nat := 4

/-- Padding count
`num_padding_chars = BASE64_BLOCK_SIZE - (len(part) % BASE64_BLOCK_SIZE)`
from the loop body of `log_jwt_token_details`. -/
def num_padding_chars (part : String) : Nat :=
  BASE64_BLOCK_SIZE - (part.length % BASE64_BLOCK_SIZE)

/-- Padded segment `part_for_decode` from the loop body of
`log_jwt_token_details`: the segment with `'='` appended
`num_padding_chars` times when that count is not `BASE64_BLOCK_SIZE`, the
segment unchanged otherwise. -/
def part_for_decode (part : String) : String :=
  if num_padding_chars part ≠ BASE64_BLOCK_SIZE then
    part ++ String.mk (List.replicate (num_padding_chars part) '=')
  else
    part

/-! Section: Base64 validity and decoding (external codec)

`base64.b64decode` belongs to the Python standard library, outside this
repository, so it is modelled from the spec. -/

/-- Modelled from the spec: membership in the standard base64 alphabet
(upper case letters, lower case letters, digits, `'+'`, `'/'`). -/
def isB64Char (c : Char) : Bool :=
  (decide ('A' ≤ c) && decide (c ≤ 'Z')) ||
  (decide ('a' ≤ c) && decide (c ≤ 'z')) ||
  (decide ('0' ≤ c) && decide (c ≤ '9')) ||
  (c == '+') || (c == '/')

/-- Modelled from the spec: a string is a valid base64 string decodable
without further padding when its length is a multiple of four and it
consists of alphabet characters followed by at most two `'='` padding
characters. -/
def isValidB64 (s : String) : Bool :=
  decide (s.data.length % 4 = 0) &&
  ((s.data.drop (s.data.takeWhile isB64Char).length).all (fun c => c == '=')) &&
  decide ((s.data.drop (s.data.takeWhile isB64Char).length).length ≤ 2)

/-- Modelled from the spec: the six-bit value of a base64 alphabet
character. -/
def b64CharVal (c : Char) : Nat :=
  if decide ('A' ≤ c) && decide (c ≤ 'Z') then c.toNat - 'A'.toNat
  else if decide ('a' ≤ c) && decide (c ≤ 'z') then c.toNat - 'a'.toNat + 26
  else if decide ('0' ≤ c) && decide (c ≤ '9') then c.toNat - '0'.toNat + 52
  else if c == '+' then 62
  else 63

/-- Modelled from the spec: decoding of a base64 character list four
characters at a time, each quad yielding three bytes, with a final quad
ending in one or two `'='` yielding two bytes or one byte. -/
def b64DecodeQuads : List Char → List Nat
  | a :: b :: c :: d :: rest =>
      let n := b64CharVal a * 262144 + b64CharVal b * 4096 +
               b64CharVal c * 64 + b64CharVal d
      if c == '=' then [n / 65536]
      else if d == '=' then [n / 65536, n / 256 % 256]
      else n / 65536 :: n / 256 % 256 :: n % 256 :: b64DecodeQuads rest
  | _ => []

/-- Modelled from the spec: `base64.b64decode`, which returns the decoded
bytes of a valid base64 string and raises on an invalid one. -/
def pyB64Decode (s : String) : Except String (List Nat) :=
  if isValidB64 s then Except.ok (b64DecodeQuads s.data)
  else Except.error "binascii.Error: invalid base64-encoded string"

/-! Section: String splitting (external builtin)

`str.split(".")` of the Python standard library, modelled from the spec:
splitting on every occurrence of the dot, keeping empty segments, with the
whole string as single segment when no dot occurs. -/

/-- Modelled from the spec: accumulator loop of splitting a character list
on `'.'`. -/
def splitDotAux : List Char → List Char → List String
  | [], acc => [String.mk acc.reverse]
  | c :: rest, acc =>
      if c == '.' then String.mk acc.reverse :: splitDotAux rest []
      else splitDotAux rest (c :: acc)

/-- Modelled from the spec: Python `access_token.split(".")`. -/
def pySplitDot (s : String) : List String :=
  splitDotAux s.data []

/-! Section: JSON values (external codec)

`json.load` / `json.loads` belong to the standard library; only the shape
of the parsed value and dictionary subscription are needed here. -/

/-- Modelled from the spec: a parsed JSON value. -/
inductive PyJson where
  | null
  | bool (b : Bool)
  | num (n : Int)
  | str (s : String)
  | arr (items : List PyJson)
  | obj (fields : List (String × PyJson))
deriving Repr

/-- Modelled from the spec: Python subscription `value[key]` on a parsed
JSON value: the stored value when `value` is an object containing the key,
an error (KeyError or TypeError) otherwise. -/
def jsonGet (j : PyJson) (key : String) : Except String PyJson :=
  match j with
  | PyJson.obj fields =>
      match fields.lookup key with
      | some v => Except.ok v
      | Option.none => Except.error ("KeyError: " ++ key)
  | _ => Except.error "TypeError: value is not subscriptable by string"

/-! Section: Startup configuration load — module level of `test_identity_agent.py`

The module body reads `inbound_authorizer.json` once and extracts
`config["provider"]["name"]`, `config["cognito"]["scope"]` and
`config["runtime"]["url"]`.  The file read and JSON parse are external;
the extraction acts on the parsed value. -/

/-- The module-level configuration extraction of `test_identity_agent.py`:
given the parsed config JSON, produces the triple
(`OAUTH_PROVIDER`, `OAUTH_SCOPE`, `RUNTIME_URL`); any missing key makes
the whole load fail. -/
def loadConfig (config : PyJson) : Except String (PyJson × PyJson × PyJson) :=
  match jsonGet config "provider" with
  | Except.error e => Except.error e
  | Except.ok provider =>
    match jsonGet provider "name" with
    | Except.error e => Except.error e
    | Except.ok oauth_provider =>
      match jsonGet config "cognito" with
      | Except.error e => Except.error e
      | Except.ok cognito =>
        match jsonGet cognito "scope" with
        | Except.error e => Except.error e
        | Except.ok oauth_scope =>
          match jsonGet config "runtime" with
          | Except.error e => Except.error e
          | Except.ok runtime =>
            match jsonGet runtime "url" with
            | Except.error e => Except.error e
            | Except.ok runtime_url =>
              Except.ok (oauth_provider, oauth_scope, runtime_url)

/-! Section: Token diagnostic logger — `log_jwt_token_details`

The function splits the token on `'.'` and, for each of the first two
segments, pads it, base64-decodes it, UTF-8 decodes and JSON-parses the
bytes, and logs the outcome; any exception in the loop body is caught and
logged as an error.  The fallible external pipeline
(`base64.b64decode`, `bytes.decode`, `json.loads`) is the parameter
`decodeAndParse`; its argument is always the padded segment
`part_for_decode part`. -/

/-- One diagnostic log line of `log_jwt_token_details`: the segment index,
the padded string handed to the base64 decoder, and the caught outcome of
the decode-and-parse pipeline (an `info` line on success, an `error` line
on a caught exception). -/
structure SegmentAttempt where
  idx : Nat
  input : String
  result : Except String PyJson
deriving Repr

/-- The body of the `for` loop of `log_jwt_token_details` at index `i` on
segment `part`: pad the segment, run the external decode pipeline under
`try`, and record the outcome (success or caught exception). -/
def segmentAttempt (decodeAndParse : String → Except String PyJson)
    (i : Nat) (part : String) : SegmentAttempt :=
  { idx := i
    input := part_for_decode part
    result := decodeAndParse (part_for_decode part) }

/-- The `for i, part in enumerate(...)` loop of `log_jwt_token_details`,
starting at index `i`. -/
def logJwtLoop (decodeAndParse : String → Except String PyJson) :
    Nat → List String → List SegmentAttempt
  | _, [] => []
  | i, part :: rest =>
      segmentAttempt decodeAndParse i part ::
        logJwtLoop decodeAndParse (i + 1) rest

/-- The logger `log_jwt_token_details(access_token)`: split the token on
`'.'`, iterate over the first two segments only (`token_parts[:2]`), and
record one caught outcome per segment. -/
def log_jwt_token_details (decodeAndParse : String → Except String PyJson)
    (access_token : String) : List SegmentAttempt :=
  let token_parts := pySplitDot access_token
  logJwtLoop decodeAndParse 0 (token_parts.take 2)

/-! Section: Authenticated estimator call — `_cost_estimator_with_auth`

The decorator injects `access_token` (default `None`); the function logs
the token details when the token is truthy, builds the headers, issues a
single `requests.post` with a JSON body, raises for a failure status and
returns the raw response text.  The HTTP client is the parameter `post`;
the timestamp of the generated session id is the parameter `nowStamp`. -/

/-- Python string interpolation of a possibly absent token:
`f"Bearer \x7baccess_token\x7d"` renders `None` as the string
`"None"`. -/
def pyStr : Option String → String
  | Option.none => "None"
  | some s => s

/-- Python truthiness of a possibly absent string
(`if access_token:`): `None` and the empty string are falsy. -/
def pyTruthy : Option String → Bool
  | Option.none => false
  | some s => !s.isEmpty

/-- The HTTP request issued by `requests.post`: URL, header list, and the
JSON body (whose wire serialization by `json.dumps` is external). -/
structure HttpRequest where
  url : String
  headers : List (String × String)
  body : PyJson
deriving Repr

/-- An HTTP response: status code and raw body text. -/
structure HttpResponse where
  status : Nat
  text : String
deriving Repr

/-- Modelled from the spec: `response.raise_for_status()`, which raises on
any non-success (non-2xx) HTTP status and does nothing on success. -/
def raise_for_status (r : HttpResponse) : Except String Unit :=
  if 200 ≤ r.status ∧ r.status < 300 then Except.ok ()
  else Except.error ("HTTPError: status " ++ Nat.repr r.status)

/-- The single request built inside `_cost_estimator_with_auth`: posted to
`RUNTIME_URL`, with bearer authorization, JSON content type, session-id
and trace-id headers both set to the generated session identifier, and the
prompt as JSON body. -/
def builtRequest (runtime_url nowStamp architecture_description : String)
    (access_token : Option String) : HttpRequest :=
  let session_id := "runtime-with-identity-" ++ nowStamp
  { url := runtime_url
    headers :=
      [("Authorization", "Bearer " ++ pyStr access_token),
       ("Content-Type", "application/json"),
       ("X-Amzn-Bedrock-AgentCore-Runtime-Session-Id", session_id),
       ("X-Amzn-Trace-Id", session_id)]
    body := PyJson.obj [("prompt", PyJson.str architecture_description)] }

/-- The function `_cost_estimator_with_auth`: generates the session id, logs the token
details when the injected token is truthy, issues exactly one POST of the
built request, raises for a failure status and otherwise returns the raw
response text.  The result records the list of requests issued, the
diagnostic log produced, and the outcome. -/
def cost_estimator_with_auth (post : HttpRequest → HttpResponse)
    (decodeAndParse : String → Except String PyJson)
    (runtime_url nowStamp architecture_description : String)
    (access_token : Option String) :
    List HttpRequest × List SegmentAttempt × Except String String :=
  let tokenLog :=
    if pyTruthy access_token then
      log_jwt_token_details decodeAndParse (pyStr access_token)
    else []
  let req := builtRequest runtime_url nowStamp architecture_description
    access_token
  let response := post req
  ([req], tokenLog,
    match raise_for_status response with
    | Except.ok _ => Except.ok response.text
    | Except.error e => Except.error e)

/-! Section: Concrete instantiations used in witnesses

A concrete decode pipeline (base64 decode to a JSON array of byte values),
a concrete HTTP client answering 404, and a concrete configuration value. -/

/-- A concrete decode-and-parse pipeline used to instantiate the external
pipeline parameter: base64-decodes and renders the bytes as a JSON array
of numbers. -/
def demoDecodePipeline (s : String) : Except String PyJson :=
  match pyB64Decode s with
  | Except.ok bytes =>
      Except.ok (PyJson.arr (bytes.map (fun b => PyJson.num (Int.ofNat b))))
  | Except.error e => Except.error e

/-- A concrete HTTP client answering every request with status 404. -/
def post404 : HttpRequest → HttpResponse :=
  fun _ => { status := 404, text := "not found" }

/-- A concrete parsed configuration JSON with all three required nested
keys. -/
def demoConfig : PyJson :=
  PyJson.obj
    [("provider", PyJson.obj [("name", PyJson.str "p")]),
     ("cognito", PyJson.obj [("scope", PyJson.str "s")]),
     ("runtime", PyJson.obj [("url", PyJson.str "u")])]

/-! Section: Helper lemmas -/

/-- The inputs recorded by the logger loop are exactly the padded
segments, in order. -/
theorem logJwtLoop_map_input (d : String → Except String PyJson) (i : Nat)
    (parts : List String) :
    (logJwtLoop d i parts).map SegmentAttempt.input =
      parts.map part_for_decode := by
  induction parts generalizing i with
  | nil => rfl
  | cons p rest ih => simp [logJwtLoop, segmentAttempt, ih]

/-- Closed form of the logger loop: one attempt per indexed segment, each
depending only on its own segment. -/
theorem logJwtLoop_eq_map_enumFrom (d : String → Except String PyJson)
    (i : Nat) (parts : List String) :
    logJwtLoop d i parts =
      (parts.enumFrom i).map (fun pr => segmentAttempt d pr.1 pr.2) := by
  induction parts generalizing i with
  | nil => rfl
  | cons p rest ih => simp [logJwtLoop, List.enumFrom, ih]

/-- Splitting always yields at least one segment. -/
theorem splitDotAux_length_pos (cs : List Char) :
    ∀ acc, 1 ≤ (splitDotAux cs acc).length := by
  induction cs with
  | nil => intro acc; simp [splitDotAux]
  | cons c rest ih =>
    intro acc
    by_cases h : c == '.'
    · simp [splitDotAux, h]
    · simp only [splitDotAux, h]
      exact ih _

/-- The forwarding loop of the streaming entrypoint is the identity on
event lists. -/
theorem forwardEvents_id {α : Type} (l : List α) : forwardEvents l = l := by
  induction l with
  | nil => rfl
  | cons e rest ih => simp [forwardEvents, ih]

/-- Taking while a predicate holds distributes over an append whose left
part satisfies the predicate everywhere. -/
theorem takeWhile_append_of_all {p : Char → Bool} {l₁ l₂ : List Char}
    (h : l₁.all p = true) :
    (l₁ ++ l₂).takeWhile p = l₁ ++ l₂.takeWhile p := by
  induction l₁ with
  | nil => simp
  | cons c cs ih =>
    simp only [List.all_cons, Bool.and_eq_true] at h
    simp [List.takeWhile_cons, h.1, ih h.2]

/-- No padding character belongs to the base64 alphabet. -/
theorem takeWhile_replicate_pad (n : Nat) :
    (List.replicate n '=').takeWhile isB64Char = [] := by
  cases n with
  | zero => rfl
  | succ m =>
    have hpad : isB64Char '=' = false := by decide
    simp [List.replicate, List.takeWhile_cons, hpad]

/-- Every character of a padding run is the padding character. -/
theorem all_replicate_pad (n : Nat) :
    (List.replicate n '=').all (fun c => c == '=') = true := by
  induction n with
  | zero => rfl
  | succ m ih => simp [List.replicate, ih]

/-- A run of alphabet characters followed by at most two padding
characters, of total length a multiple of four, is a valid base64
string. -/
theorem isValidB64_padded (l : List Char) (k : Nat)
    (hall : l.all isB64Char = true) (hk : k ≤ 2)
    (hlen : (l.length + k) % 4 = 0) :
    isValidB64 (String.mk (l ++ List.replicate k '=')) = true := by
  have hdata : (String.mk (l ++ List.replicate k '=')).data =
      l ++ List.replicate k '=' := rfl
  have htw : (l ++ List.replicate k '=').takeWhile isB64Char = l := by
    rw [takeWhile_append_of_all hall, takeWhile_replicate_pad, List.append_nil]
  have hdrop : (l ++ List.replicate k '=').drop l.length =
      List.replicate k '=' := List.drop_left l (List.replicate k '=')
  simp only [isValidB64, hdata, htw, hdrop, List.length_append,
    List.length_replicate, hlen, all_replicate_pad]
  simp [hk]

/-! Section: Claim theorems -/

/-- C1 (amended): for every string whose length is not a multiple of 4,
`part_for_decode` appends exactly `4 - (len mod 4)` padding characters
(and appends nothing when the length is already a multiple of 4), so the
padded length is always a multiple of 4; the padded string is a valid
base64 string decodable without further padding whenever the segment
consists of base64 alphabet characters and its length is not congruent to
1 modulo 4. -/
theorem padding_computation (s : String) :
    (s.length % 4 = 0 → part_for_decode s = s) ∧
    (s.length % 4 ≠ 0 →
      part_for_decode s =
        s ++ String.mk (List.replicate (4 - s.length % 4) '=') ∧
      (part_for_decode s).length = s.length + (4 - s.length % 4)) ∧
    (part_for_decode s).length % 4 = 0 ∧
    (s.data.all isB64Char = true → s.length % 4 ≠ 1 →
      isValidB64 (part_for_decode s) = true) := by
  have hlen : s.length = s.data.length := rfl
  have hnum : num_padding_chars s = 4 - s.length % 4 := rfl
  have hmod : s.length % 4 < 4 := Nat.mod_lt _ (by omega)
  by_cases h0 : s.length % 4 = 0
  · have hcond : ¬ num_padding_chars s ≠ BASE64_BLOCK_SIZE := by
      rw [hnum, h0]
      simp [BASE64_BLOCK_SIZE]
    have hpd : part_for_decode s = s := by
      rw [part_for_decode, if_neg hcond]
    refine ⟨fun _ => hpd, fun hne => absurd h0 hne, ?_, ?_⟩
    · rw [hpd]; exact h0
    · intro hall _
      rw [hpd]
      have hv : isValidB64 (String.mk (s.data ++ List.replicate 0 '=')) = true :=
        isValidB64_padded s.data 0 hall (by omega) (by omega)
      simpa using hv
  · have hcond : num_padding_chars s ≠ BASE64_BLOCK_SIZE := by
      rw [hnum]
      simp only [BASE64_BLOCK_SIZE]
      omega
    have hpd : part_for_decode s =
        s ++ String.mk (List.replicate (4 - s.length % 4) '=') := by
      rw [part_for_decode, if_pos hcond, hnum]
    have happ : s ++ String.mk (List.replicate (4 - s.length % 4) '=') =
        String.mk (s.data ++ List.replicate (4 - s.length % 4) '=') := rfl
    have hplen : (part_for_decode s).length = s.length + (4 - s.length % 4) := by
      rw [hpd, happ]
      show (s.data ++ List.replicate (4 - s.length % 4) '=').length = _
      rw [List.length_append, List.length_replicate, hlen]
    refine ⟨fun h => absurd h h0, fun _ => ⟨hpd, hplen⟩, ?_, ?_⟩
    · rw [hplen]; omega
    · intro hall h1
      rw [hpd, happ]
      exact isValidB64_padded s.data (4 - s.length % 4) hall
        (by omega) (by rw [← hlen]; omega)

/-- C1 counterexample: the string `"A"` has length 1, not a multiple of 4;
the padding computation turns it into `"A==="`, which is not a valid
base64 string and is not decodable, so the claim that every padded string
of non-multiple-of-4 length is valid base64 fails. -/
theorem padding_validity_counterexample :
    "A".length % 4 ≠ 0 ∧
    part_for_decode "A" = "A===" ∧
    isValidB64 (part_for_decode "A") = false ∧
    pyB64Decode (part_for_decode "A") =
      Except.error "binascii.Error: invalid base64-encoded string" := by
  refine ⟨by decide, by decide, by decide, by rfl⟩

/-- C1 witness: the seven-character segment `"aGVsbG8"` is padded to
`"aGVsbG8="`, a valid base64 string. -/
theorem padding_computation_witness :
    "aGVsbG8".length % 4 ≠ 0 ∧
    part_for_decode "aGVsbG8" = "aGVsbG8=" ∧
    isValidB64 (part_for_decode "aGVsbG8") = true := by
  refine ⟨by decide, ?_, ?_⟩
  · have h := ((padding_computation "aGVsbG8").2.1 (by decide)).1
    exact h.trans (by decide)
  · exact (padding_computation "aGVsbG8").2.2.2 (by decide) (by decide)

/-- C2: the logger splits the token on the dot and attempts decoding only
on the first two segments, each padded first; the signature segment is
never handed to the decoder.  For the token `"aGVsbG8.d29ybGQ.sig"` the
decode inputs are exactly `"aGVsbG8="` and `"d29ybGQ="`. -/
theorem decode_first_two_segments_only
    (decodeAndParse : String → Except String PyJson) (tok : String) :
    (log_jwt_token_details decodeAndParse tok).map SegmentAttempt.input =
      ((pySplitDot tok).take 2).map part_for_decode ∧
    (log_jwt_token_details decodeAndParse "aGVsbG8.d29ybGQ.sig").map
        SegmentAttempt.input = ["aGVsbG8=", "d29ybGQ="] := by
  constructor
  · exact logJwtLoop_map_input decodeAndParse 0 ((pySplitDot tok).take 2)
  · rw [log_jwt_token_details]
    rw [logJwtLoop_map_input]
    decide

/-- C3: when the payload contains the key `"prompt"` with value `X`, the
batch entrypoint calls the agent batch estimation with exactly `X` and
returns its result unchanged. -/
theorem invoke_passthrough {α : Type} (estimate_costs : PyVal → α)
    (payload : List (String × PyVal)) (X : PyVal)
    (h : payload.lookup "prompt" = some X) :
    invoke estimate_costs payload = estimate_costs X := by
  simp [invoke, pyDictGet, h]

/-- C3 witness: on the payload `[("prompt", "X")]` with a pairing agent,
the entrypoint returns the agent result on `"X"` verbatim. -/
theorem invoke_passthrough_witness :
    ([("prompt", PyVal.str "X")].lookup "prompt" = some (PyVal.str "X")) ∧
    invoke (fun v => (v, 42)) [("prompt", PyVal.str "X")] =
      (PyVal.str "X", 42) :=
  ⟨rfl, invoke_passthrough (fun v => (v, 42)) [("prompt", PyVal.str "X")]
    (PyVal.str "X") rfl⟩

/-- C4: the streaming entrypoint forwards the upstream event sequence to
its caller unchanged: the forwarding loop is the identity on event lists,
so no event is dropped, duplicated or reordered. -/
theorem stream_forward_identity {α : Type}
    (estimate_costs_stream : PyVal → List α)
    (payload : List (String × PyVal)) (events : List α) :
    forwardEvents events = events ∧
    invoke_stream estimate_costs_stream payload =
      estimate_costs_stream (pyDictGet payload "prompt") := by
  refine ⟨forwardEvents_id events, ?_⟩
  simp [invoke_stream, forwardEvents_id]

/-- C5: the logger output is one attempt per segment among the first two,
each attempt computed from its own segment only, so a decode failure on
one segment cannot prevent or change the attempt on the other; concretely,
on `"!!!!.AAAA.sig"` the first segment fails, its error is recorded, and
the second segment is still decoded successfully. -/
theorem segment_decode_independence
    (decodeAndParse : String → Except String PyJson) (tok : String) :
    log_jwt_token_details decodeAndParse tok =
      (((pySplitDot tok).take 2).enumFrom 0).map
        (fun pr => segmentAttempt decodeAndParse pr.1 pr.2) ∧
    log_jwt_token_details demoDecodePipeline "!!!!.AAAA.sig" =
      [⟨0, "!!!!", Except.error "binascii.Error: invalid base64-encoded string"⟩,
       ⟨1, "AAAA", Except.ok (PyJson.arr [PyJson.num 0, PyJson.num 0, PyJson.num 0])⟩] := by
  constructor
  · exact logJwtLoop_eq_map_enumFrom decodeAndParse 0 ((pySplitDot tok).take 2)
  · rfl

/-- C6: the authenticated call issues exactly one POST; on a 2xx status it
returns the raw response text, on any non-2xx status it raises the status
error and returns no result; in both cases the single request is the only
one issued (no retry). -/
theorem http_raise_on_failure (post : HttpRequest → HttpResponse)
    (decodeAndParse : String → Except String PyJson)
    (url stamp desc : String) (token : Option String) :
    (cost_estimator_with_auth post decodeAndParse url stamp desc token).1 =
      [builtRequest url stamp desc token] ∧
    (200 ≤ (post (builtRequest url stamp desc token)).status ∧
        (post (builtRequest url stamp desc token)).status < 300 →
      (cost_estimator_with_auth post decodeAndParse url stamp desc token).2.2 =
        Except.ok (post (builtRequest url stamp desc token)).text) ∧
    (¬(200 ≤ (post (builtRequest url stamp desc token)).status ∧
        (post (builtRequest url stamp desc token)).status < 300) →
      (cost_estimator_with_auth post decodeAndParse url stamp desc token).2.2 =
        Except.error ("HTTPError: status " ++
          Nat.repr (post (builtRequest url stamp desc token)).status)) := by
  refine ⟨rfl, ?_, ?_⟩
  · intro h
    simp [cost_estimator_with_auth, raise_for_status, h]
  · intro h
    simp [cost_estimator_with_auth, raise_for_status, h]

/-- C6 witness: against a client answering 404, the call raises the 404
status error. -/
theorem http_raise_on_failure_witness :
    (¬(200 ≤ (post404 (builtRequest "u" "t" "d" (some "tok"))).status ∧
        (post404 (builtRequest "u" "t" "d" (some "tok"))).status < 300)) ∧
    (cost_estimator_with_auth post404 demoDecodePipeline "u" "t" "d"
        (some "tok")).2.2 = Except.error "HTTPError: status 404" := by
  refine ⟨by decide, ?_⟩
  have h := (http_raise_on_failure post404 demoDecodePipeline "u" "t" "d"
    (some "tok")).2.2 (by decide)
  exact h.trans (by rfl)

/-- C7: every invocation issues exactly one POST to the configured runtime
URL, with bearer authorization, JSON content type, the session-id header
and the trace-id header both equal to the same generated session
identifier, and the prompt as the JSON body. -/
theorem http_request_shape (post : HttpRequest → HttpResponse)
    (decodeAndParse : String → Except String PyJson)
    (url stamp desc : String) (token : Option String) :
    (cost_estimator_with_auth post decodeAndParse url stamp desc token).1 =
      [{ url := url
         headers :=
           [("Authorization", "Bearer " ++ pyStr token),
            ("Content-Type", "application/json"),
            ("X-Amzn-Bedrock-AgentCore-Runtime-Session-Id",
              "runtime-with-identity-" ++ stamp),
            ("X-Amzn-Trace-Id", "runtime-with-identity-" ++ stamp)]
         body := PyJson.obj [("prompt", PyJson.str desc)] }] := rfl

/-- C8: the startup loader succeeds exactly when all three nested keys
(provider name, OAuth scope, runtime URL) are present, and then extracts
exactly those three values and no others; when any key is missing the load
fails, so the process does not start. -/
theorem loadConfig_spec (config : PyJson) (t : PyJson × PyJson × PyJson) :
    loadConfig config = Except.ok t ↔
      ∃ provider cognito runtime,
        jsonGet config "provider" = Except.ok provider ∧
        jsonGet provider "name" = Except.ok t.1 ∧
        jsonGet config "cognito" = Except.ok cognito ∧
        jsonGet cognito "scope" = Except.ok t.2.1 ∧
        jsonGet config "runtime" = Except.ok runtime ∧
        jsonGet runtime "url" = Except.ok t.2.2 := by
  constructor
  · intro h
    rw [loadConfig] at h
    cases h1 : jsonGet config "provider" with
    | error e => simp [h1] at h
    | ok provider =>
      simp only [h1] at h
      cases h2 : jsonGet provider "name" with
      | error e => simp [h2] at h
      | ok nameV =>
        simp only [h2] at h
        cases h3 : jsonGet config "cognito" with
        | error e => simp [h3] at h
        | ok cognito =>
          simp only [h3] at h
          cases h4 : jsonGet cognito "scope" with
          | error e => simp [h4] at h
          | ok scopeV =>
            simp only [h4] at h
            cases h5 : jsonGet config "runtime" with
            | error e => simp [h5] at h
            | ok runtime =>
              simp only [h5] at h
              cases h6 : jsonGet runtime "url" with
              | error e => simp [h6] at h
              | ok urlV =>
                simp only [h6, Except.ok.injEq] at h
                subst h
                exact ⟨provider, cognito, runtime, rfl, h2, rfl, h4, rfl, h6⟩
  · rintro ⟨provider, cognito, runtime, h1, h2, h3, h4, h5, h6⟩
    simp [loadConfig, h1, h2, h3, h4, h5, h6]

/-- C8 witness: the demo configuration loads to exactly its three nested
values, and the empty object fails with a missing-key error. -/
theorem loadConfig_spec_witness :
    loadConfig demoConfig =
      Except.ok (PyJson.str "p", PyJson.str "s", PyJson.str "u") ∧
    loadConfig (PyJson.obj []) = Except.error "KeyError: provider" := by
  constructor
  · exact (loadConfig_spec demoConfig
      (PyJson.str "p", PyJson.str "s", PyJson.str "u")).2
      ⟨PyJson.obj [("name", PyJson.str "p")],
       PyJson.obj [("scope", PyJson.str "s")],
       PyJson.obj [("url", PyJson.str "u")],
       rfl, rfl, rfl, rfl, rfl, rfl⟩
  · rfl

/-- C9: for every input string the logger terminates normally with no
exception escaping: splitting always yields at least one segment, the
first-two-segments slice is total even with fewer than two segments, and
the logger records exactly one caught outcome per sliced segment. -/
theorem logger_never_raises (decodeAndParse : String → Except String PyJson)
    (tok : String) :
    1 ≤ (pySplitDot tok).length ∧
    (log_jwt_token_details decodeAndParse tok).length =
      min 2 (pySplitDot tok).length := by
  constructor
  · exact splitDotAux_length_pos tok.data []
  · have h := congrArg List.length
      (logJwtLoop_map_input decodeAndParse 0 ((pySplitDot tok).take 2))
    simp only [List.length_map] at h
    rw [log_jwt_token_details, h, List.length_take]

/-- C10: with an absent (`None`) or empty token the call does not fail and
does not skip the request: the diagnostic log is empty, the single POST is
still issued, and the authorization header carries the Python string
rendering of the token (`"Bearer None"` for `None`, `"Bearer "` for the
empty string). -/
theorem absent_token_behaviour (post : HttpRequest → HttpResponse)
    (decodeAndParse : String → Except String PyJson)
    (url stamp desc : String) :
    (∀ token : Option String, pyTruthy token = false →
      (cost_estimator_with_auth post decodeAndParse url stamp desc token).2.1 = [] ∧
      (cost_estimator_with_auth post decodeAndParse url stamp desc token).1 =
        [builtRequest url stamp desc token]) ∧
    ((builtRequest url stamp desc Option.none).headers.lookup "Authorization" =
      some "Bearer None") ∧
    ((builtRequest url stamp desc (some "")).headers.lookup "Authorization" =
      some "Bearer ") := by
  refine ⟨?_, rfl, rfl⟩
  intro token h
  constructor
  · simp [cost_estimator_with_auth, h]
  · rfl

/-- C10 witness: with the token absent, the diagnostic log is empty and
the authorization header is the literal `"Bearer None"`. -/
theorem absent_token_behaviour_witness :
    pyTruthy Option.none = false ∧
    (cost_estimator_with_auth post404 demoDecodePipeline "u" "t" "d"
        Option.none).2.1 = [] ∧
    (builtRequest "u" "t" "d" Option.none).headers.lookup "Authorization" =
      some "Bearer None" := by
  refine ⟨by decide, ?_, ?_⟩
  · exact ((absent_token_behaviour post404 demoDecodePipeline "u" "t" "d").1
      Option.none (by decide)).1
  · exact (absent_token_behaviour post404 demoDecodePipeline "u" "t" "d").2.1
